import Mathlib

/-!
Shallow embedding of `src/training.py` from the CycleGANs repository.

The file models the control flow and aggregation logic of the training
orchestration module: `test_model`, `run`, and `load_model_and_only_test`.
Tensor arithmetic (the networks' numeric behaviour) is abstracted into
oracles: a per-batch training-loss oracle `trainLoss : Nat → Nat → LossRecord`
(epoch, batch ↦ the Loss Record returned by `cycle_gan_model.train_step` on
that batch at that point of training), a validation oracle
`valLosses : Nat → Nat → List LossRecord` (the per-batch losses that
`model.test_step` yields over the validation dataset when validation fires
at (epoch, batch)), and a list `testLosses` for the final test dataset.
Side effects (plot_images, save_images, save_models, load_models) are
recorded as an explicit event trace.  Scalar losses are rationals.
Filesystem state is abstracted by a boolean `loadOk` saying whether
`load_models(start_epoch)` succeeds or raises.
-/

/-- Configuration constants imported from `params.py` (file not part of the
given sources; modelled from the spec as free values of the recognized
configuration surface). -/
structure Config where
  EPOCHS : Nat
  BATCH_SIZE : Nat
  LAMBDA_CYCLE : ℚ
  LEARNING_RATE_GEN : ℚ
  LEARNING_RATE_DISC : ℚ
  BETA : ℚ
  SAVE_EVERY_TRAIN : Nat
  SAVE_EVERY_TEST : Nat
  VALIDATION_EVERY : Nat
deriving Repr, DecidableEq

/-- The Loss Record: the four named scalar losses returned by
`train_step` / `test_step` (`training.py` consumes keys G_loss, F_loss,
D_X_loss, D_Y_loss). -/
structure LossRecord where
  G_loss : ℚ
  F_loss : ℚ
  D_X_loss : ℚ
  D_Y_loss : ℚ
deriving Repr, DecidableEq

/-- The dictionary returned by `test_model` (`training.py` lines 47-52). -/
structure AvgLosses where
  avg_G_loss : ℚ
  avg_F_loss : ℚ
  avg_DX_loss : ℚ
  avg_DY_loss : ℚ
deriving Repr, DecidableEq

/-- Which constructor built a fresh network. -/
inductive NetKind where
  | generator
  | discriminator
deriving Repr, DecidableEq

/-- A network handle.  We track only its provenance: freshly constructed by
`make_generator_model` / `make_discriminator_model` with a given input
shape, or reconstructed by `load_models(epoch)` (slot = its position in the
returned 4-tuple). -/
inductive Network where
  | fresh (kind : NetKind) (shape : List Nat)
  | loaded (epoch : Nat) (slot : Nat)
deriving Repr, DecidableEq

/-- The four networks (generator_G, generator_F, discriminator_X,
discriminator_Y) owned by the CycleGAN aggregate. -/
abbrev Nets := Network × Network × Network × Network

/-- The `epoch` argument handed to `test_model` / `save_images`: the code
passes either an epoch number (as int or `str(epoch)`), the string
`str(epoch)+"_"+str(batch)` built at line 160, or the literal
`"final_test"`.  Modelled structurally (the three shapes are disjoint). -/
inductive Tag where
  | num (epoch : Nat)
  | pair (epoch : Nat) (batch : Nat)
  | final
deriving Repr, DecidableEq

/-- Output directory of a `save_images` call. -/
inductive OutDir where
  | train_images
  | test_images
deriving Repr, DecidableEq

/-- Observable side effects of `training.py`, in program order.
`saveImages` carries the epoch tag, the batch index of the loop that issued
it, and the output directory.  `saveModels` carries the four networks passed
to `save_models` and the epoch argument. -/
inductive Event where
  | plotImages
  | saveImages (epochTag : Tag) (batch : Nat) (outputDir : OutDir)
  | trainStep (epoch : Nat) (batch : Nat)
  | loadModels (epoch : Nat)
  | saveModels (nets : Nets) (epoch : Nat)
deriving Repr, DecidableEq

/-- Model of `make_generator_model(shape)` (external, from `models.py`). -/
def make_generator_model (shape : List Nat) : Network :=
  Network.fresh NetKind.generator shape

/-- Model of `make_discriminator_model(shape)` (external, from `models.py`). -/
def make_discriminator_model (shape : List Nat) : Network :=
  Network.fresh NetKind.discriminator shape

/-- The four freshly initialized networks built in `run` (lines 85-88 and
90-93). -/
def freshNets (shape : List Nat) : Nets :=
  (make_generator_model shape, make_generator_model shape,
   make_discriminator_model shape, make_discriminator_model shape)

/-- Model of `load_models(epoch)` (external, from `data_loader.py`): either
returns the four checkpointed networks for that epoch or raises.  `loadOk`
abstracts the filesystem state (checkpoint present and readable). -/
def load_models (loadOk : Bool) (epoch : Nat) : Except String Nets :=
  if loadOk then
    Except.ok (Network.loaded epoch 0, Network.loaded epoch 1,
               Network.loaded epoch 2, Network.loaded epoch 3)
  else
    Except.error "checkpoint missing or corrupt"

/-- np.mean over a list of scalars (sum divided by length; the code only
consumes it through `test_model`). -/
def listMean (xs : List ℚ) : ℚ :=
  xs.sum / xs.length

/-- Events emitted by one iteration of the batch loop of `test_model`
(lines 27-36) for batch index `b`: an optional `plot_images` call (line 31)
and an optional `save_images(..., output_dir="test_images")` call
(lines 35-36, fires when `batch % SAVE_EVERY_TEST == 0`). -/
def testBatchEvents (cfg : Config) (plot : Bool) (epochTag : Tag) (b : Nat) :
    List Event :=
  (if plot then [Event.plotImages] else []) ++
    (if b % cfg.SAVE_EVERY_TEST == 0 then
      [Event.saveImages epochTag b OutDir.test_images]
    else [])

/-- Events emitted by the batch loop of `test_model` over batches
`0, 1, ..., n-1`, in order. -/
def testEvents (cfg : Config) (plot : Bool) (epochTag : Tag) : Nat → List Event
  | 0 => []
  | n + 1 => testEvents cfg plot epochTag n ++ testBatchEvents cfg plot epochTag n

/-- Model of `test_model` (`training.py` lines 10-52).  `losses` is the list
of Loss Records that `model.test_step` returns on the successive batches of
the dataset; the function emits the plotting/saving events of the batch loop
and returns the dictionary of the four averaged losses (lines 37-52). -/
def test_model (cfg : Config) (losses : List LossRecord) (plot : Bool)
    (epochTag : Tag) : List Event × AvgLosses :=
  (testEvents cfg plot epochTag losses.length,
   { avg_G_loss := listMean (losses.map LossRecord.G_loss)
     avg_F_loss := listMean (losses.map LossRecord.F_loss)
     avg_DX_loss := listMean (losses.map LossRecord.D_X_loss)
     avg_DY_loss := listMean (losses.map LossRecord.D_Y_loss) })

/-- The training/validation-history lists of `run` (lines 130-138), appended
to in Python program order. -/
structure Hist where
  train_g_losses : List ℚ
  train_f_losses : List ℚ
  train_dx_losses : List ℚ
  train_dy_losses : List ℚ
  val_g_losses : List ℚ
  val_f_losses : List ℚ
  val_dx_losses : List ℚ
  val_dy_losses : List ℚ
deriving Repr, DecidableEq

/-- The empty histories at the start of `run` (lines 130-138). -/
def emptyHist : Hist :=
  ⟨[], [], [], [], [], [], [], []⟩

/-- Appending one training Loss Record to the four training lists
(lines 150-153, and again 165-168). -/
def appendTrain (h : Hist) (l : LossRecord) : Hist :=
  { h with
    train_g_losses := h.train_g_losses ++ [l.G_loss]
    train_f_losses := h.train_f_losses ++ [l.F_loss]
    train_dx_losses := h.train_dx_losses ++ [l.D_X_loss]
    train_dy_losses := h.train_dy_losses ++ [l.D_Y_loss] }

/-- Appending one averaged validation result to the four validation lists
(lines 161-164). -/
def appendVal (h : Hist) (a : AvgLosses) : Hist :=
  { h with
    val_g_losses := h.val_g_losses ++ [a.avg_G_loss]
    val_f_losses := h.val_f_losses ++ [a.avg_F_loss]
    val_dx_losses := h.val_dx_losses ++ [a.avg_DX_loss]
    val_dy_losses := h.val_dy_losses ++ [a.avg_DY_loss] }

/-- The guard of line 158: `batch % VALIDATION_EVERY == 0 and batch != 0`. -/
def validationTriggered (cfg : Config) (b : Nat) : Bool :=
  b % cfg.VALIDATION_EVERY == 0 && b != 0

/-- One iteration of the training batch loop of `run` (lines 147-164) at
(epoch, batch), acting on the pair (histories, event trace). -/
def trainBatchStep (cfg : Config) (trainLoss : Nat → Nat → LossRecord)
    (valLosses : Nat → Nat → List LossRecord) (epoch batch : Nat)
    (st : Hist × List Event) : Hist × List Event :=
  let loss := trainLoss epoch batch
  let h1 := appendTrain st.1 loss
  let ev1 := st.2 ++ [Event.trainStep epoch batch]
  let ev2 :=
    if batch % cfg.SAVE_EVERY_TRAIN == 0 then
      ev1 ++ [Event.saveImages (Tag.num epoch) batch OutDir.train_images]
    else ev1
  if validationTriggered cfg batch then
    let tm := test_model cfg (valLosses epoch batch) false
      (Tag.pair epoch batch)
    (appendVal h1 tm.2, ev2 ++ tm.1)
  else
    (h1, ev2)

/-- The whole batch loop of one epoch (line 147): batches `0, ..., K-1`
where `K` is the number of batches in the train dataset. -/
def epochBatches (cfg : Config) (trainLoss : Nat → Nat → LossRecord)
    (valLosses : Nat → Nat → List LossRecord) (epoch K : Nat)
    (st : Hist × List Event) : Hist × List Event :=
  (List.range K).foldl
    (fun s b => trainBatchStep cfg trainLoss valLosses epoch b s) st

/-- One full epoch of `run` (lines 146-172): the batch loop, then the
post-loop re-append of `train_loss` (lines 165-168) — a `NameError` if the
loop body never ran, i.e. if `K = 0` — then `save_models(...)` (line 171). -/
def runEpoch (cfg : Config) (nets : Nets) (trainLoss : Nat → Nat → LossRecord)
    (valLosses : Nat → Nat → List LossRecord) (K epoch : Nat)
    (st : Hist × List Event) : Except String (Hist × List Event) :=
  let st1 := epochBatches cfg trainLoss valLosses epoch K st
  match K with
  | 0 => Except.error "NameError: train_loss referenced before assignment"
  | k + 1 =>
    Except.ok (appendTrain st1.1 (trainLoss epoch k),
               st1.2 ++ [Event.saveModels nets epoch])

/-- Model selection at the top of `run` (lines 77-93): a resume is attempted
only when `resume_train and robotics_task==False`; a load failure is caught,
`start_epoch` is reset to 0 and fresh networks are built; in every other
case fresh networks are built and `start_epoch` is kept.  Returns
(networks, effective start epoch, events so far). -/
def selectModels (loadOk resume_train : Bool) (start_epoch : Nat)
    (robotics_task : Bool) (shape : List Nat) : Nets × Nat × List Event :=
  if resume_train && !robotics_task then
    match load_models loadOk start_epoch with
    | Except.ok ns => (ns, start_epoch, [Event.loadModels start_epoch])
    | Except.error _ => (freshNets shape, 0, [Event.loadModels start_epoch])
  else
    (freshNets shape, start_epoch, [])

/-- The generator optimizer constructed in `run` (line 95):
`tf.keras.optimizers.Adam(2e-4, beta_1=0.5)` — written with the
configuration in scope but using hard-coded literals. -/
structure Adam where
  learning_rate : ℚ
  beta_1 : ℚ
deriving Repr, DecidableEq

/-- Line 95 of `run`: `g_optimizer = tf.keras.optimizers.Adam(2e-4, beta_1=0.5)`. -/
def run_g_optimizer (_cfg : Config) : Adam :=
  { learning_rate := 2 / 10000, beta_1 := 1 / 2 }

/-- Line 96 of `run`: `d_optimizer = tf.keras.optimizers.Adam(1e-4, beta_1=0.5)`. -/
def run_d_optimizer (_cfg : Config) : Adam :=
  { learning_rate := 1 / 10000, beta_1 := 1 / 2 }

/-- Line 193 of `load_model_and_only_test`:
`g_optimizer = tf.keras.optimizers.Adam(LEARNING_RATE_GEN, beta_1=BETA)`. -/
def test_only_g_optimizer (cfg : Config) : Adam :=
  { learning_rate := cfg.LEARNING_RATE_GEN, beta_1 := cfg.BETA }

/-- Line 194 of `load_model_and_only_test`:
`d_optimizer = tf.keras.optimizers.Adam(LEARNING_RATE_DISC, beta_1=BETA)`. -/
def test_only_d_optimizer (cfg : Config) : Adam :=
  { learning_rate := cfg.LEARNING_RATE_DISC, beta_1 := cfg.BETA }

/-- The observable outcome of a successful `run`. -/
structure RunResult where
  hist : Hist
  events : List Event
  g_optimizer : Adam
  d_optimizer : Adam
  nets : Nets
  start_epoch : Nat
  epochs : List Nat
deriving Repr, DecidableEq

/-- Model of `run` (`training.py` lines 56-176).  Source-order:
model selection (77-93), optimizer construction (95-96), dataset loading
(109-123, abstracted into the oracles), three `plot_images` calls (126-128),
the epoch loop over `range(start_epoch, EPOCHS)` (145-172), and the final
`test_model(..., plot=False, epoch="final_test")` (175).  `K` is the number
of batches the train dataset yields. -/
def run (cfg : Config) (loadOk : Bool) (trainLoss : Nat → Nat → LossRecord)
    (valLosses : Nat → Nat → List LossRecord) (testLosses : List LossRecord)
    (K : Nat) (resume_train : Bool) (start_epoch : Nat) (robotics_task : Bool)
    (shape : List Nat) : Except String RunResult :=
  let sel := selectModels loadOk resume_train start_epoch robotics_task shape
  let nets := sel.1
  let startEff := sel.2.1
  let ev0 := sel.2.2 ++ [Event.plotImages, Event.plotImages, Event.plotImages]
  let epochs := List.range' startEff (cfg.EPOCHS - startEff)
  match epochs.foldlM (fun st e => runEpoch cfg nets trainLoss valLosses K e st)
      (emptyHist, ev0) with
  | Except.error msg => Except.error msg
  | Except.ok st =>
    let tm := test_model cfg testLosses false Tag.final
    Except.ok
      { hist := st.1
        events := st.2 ++ tm.1
        g_optimizer := run_g_optimizer cfg
        d_optimizer := run_d_optimizer cfg
        nets := nets
        start_epoch := startEff
        epochs := epochs }

/-- A concrete configuration used by the closed-form checks below.  Its
learning rates and momentum deliberately differ from the literals hard-coded
in `run` (lines 95-96). -/
def cfgEx : Config :=
  { EPOCHS := 2
    BATCH_SIZE := 4
    LAMBDA_CYCLE := 10
    LEARNING_RATE_GEN := 1 / 1000
    LEARNING_RATE_DISC := 1 / 2000
    BETA := 9 / 10
    SAVE_EVERY_TRAIN := 100
    SAVE_EVERY_TEST := 2
    VALIDATION_EVERY := 2 }

/-- A concrete training-loss oracle. -/
def tlEx : Nat → Nat → LossRecord :=
  fun e b => { G_loss := e, F_loss := b, D_X_loss := (e : ℚ) + b, D_Y_loss := 1 }

/-- A concrete validation-loss oracle (one validation batch). -/
def vlEx : Nat → Nat → List LossRecord :=
  fun _ _ => [{ G_loss := 2, F_loss := 3, D_X_loss := 4, D_Y_loss := 5 }]

/-- A concrete starting state for epoch-level checks. -/
def stEx : Hist × List Event :=
  (emptyHist, [])

theorem listMean_mul_length (xs : List ℚ) (h : xs ≠ []) :
    listMean xs * (xs.length : ℚ) = xs.sum := by
  have h0 : xs.length ≠ 0 := fun hh => h (List.length_eq_zero.mp hh)
  have hl : ((xs.length : ℚ)) ≠ 0 := Nat.cast_ne_zero.mpr h0
  unfold listMean
  exact div_mul_cancel₀ _ hl

theorem plotImages_not_mem_testEvents (cfg : Config) (t : Tag) (n : Nat) :
    Event.plotImages ∉ testEvents cfg false t n := by
  induction n with
  | zero => simp [testEvents]
  | succ n ih =>
    simp only [testEvents, List.mem_append]
    rintro (h | h)
    · exact ih h
    · simp only [testBatchEvents] at h
      by_cases hc : n % cfg.SAVE_EVERY_TEST == 0 <;> simp [hc] at h

theorem saveImages_mem_testBatchEvents (cfg : Config) (t : Tag) (b n : Nat) :
    Event.saveImages t b OutDir.test_images ∈ testBatchEvents cfg false t n ↔
      b = n ∧ n % cfg.SAVE_EVERY_TEST = 0 := by
  simp only [testBatchEvents]
  by_cases hc : n % cfg.SAVE_EVERY_TEST == 0
  · have hc2 : n % cfg.SAVE_EVERY_TEST = 0 := by simpa using hc
    simp [hc, hc2]
  · have hc2 : ¬n % cfg.SAVE_EVERY_TEST = 0 := by simpa using hc
    simp [hc, hc2]

theorem saveImages_mem_testEvents (cfg : Config) (t : Tag) (b n : Nat) :
    Event.saveImages t b OutDir.test_images ∈ testEvents cfg false t n ↔
      b < n ∧ b % cfg.SAVE_EVERY_TEST = 0 := by
  induction n with
  | zero => simp [testEvents]
  | succ n ih =>
    simp only [testEvents, List.mem_append, ih, saveImages_mem_testBatchEvents]
    constructor
    · rintro (⟨hb, hm⟩ | ⟨rfl, hm⟩)
      · exact ⟨Nat.lt_succ_of_lt hb, hm⟩
      · exact ⟨Nat.lt_succ_self _, hm⟩
    · rintro ⟨hb, hm⟩
      rcases Nat.lt_succ_iff_lt_or_eq.mp hb with hb | rfl
      · exact Or.inl ⟨hb, hm⟩
      · exact Or.inr ⟨rfl, hm⟩

theorem mean_field_mul_length (f : LossRecord → ℚ) (losses : List LossRecord)
    (h : losses ≠ []) :
    listMean (losses.map f) * (losses.length : ℚ) = (losses.map f).sum := by
  rw [← List.length_map losses f]
  exact listMean_mul_length _ (fun hh => h (List.map_eq_nil_iff.mp hh))

/-- C7: for every non-empty test dataset, `test_model` returns the mapping
with the four fields `avg_G_loss`, `avg_F_loss`, `avg_DX_loss`, `avg_DY_loss`,
each equal to the arithmetic mean over all batches of the corresponding
per-batch loss produced by the model on that batch (so each average times
the number of batches equals the sum of the per-batch losses). -/
theorem C7_test_model_returns_batch_means (cfg : Config)
    (losses : List LossRecord) (plot : Bool) (t : Tag) (h : losses ≠ []) :
    (test_model cfg losses plot t).2.avg_G_loss * (losses.length : ℚ)
        = (losses.map LossRecord.G_loss).sum ∧
    (test_model cfg losses plot t).2.avg_F_loss * (losses.length : ℚ)
        = (losses.map LossRecord.F_loss).sum ∧
    (test_model cfg losses plot t).2.avg_DX_loss * (losses.length : ℚ)
        = (losses.map LossRecord.D_X_loss).sum ∧
    (test_model cfg losses plot t).2.avg_DY_loss * (losses.length : ℚ)
        = (losses.map LossRecord.D_Y_loss).sum :=
  ⟨mean_field_mul_length _ _ h, mean_field_mul_length _ _ h,
   mean_field_mul_length _ _ h, mean_field_mul_length _ _ h⟩

/-- A concrete Loss Record. -/
def lrEx : LossRecord :=
  { G_loss := 1, F_loss := 2, D_X_loss := 3, D_Y_loss := 4 }

/-- Witness for `C7_test_model_returns_batch_means` at a one-batch dataset. -/
theorem C7_test_model_returns_batch_means_witness :
    ([lrEx] : List LossRecord) ≠ [] ∧
      ((test_model cfgEx [lrEx] true Tag.final).2.avg_G_loss
            * (([lrEx] : List LossRecord).length : ℚ)
          = (([lrEx] : List LossRecord).map LossRecord.G_loss).sum ∧
       (test_model cfgEx [lrEx] true Tag.final).2.avg_F_loss
            * (([lrEx] : List LossRecord).length : ℚ)
          = (([lrEx] : List LossRecord).map LossRecord.F_loss).sum ∧
       (test_model cfgEx [lrEx] true Tag.final).2.avg_DX_loss
            * (([lrEx] : List LossRecord).length : ℚ)
          = (([lrEx] : List LossRecord).map LossRecord.D_X_loss).sum ∧
       (test_model cfgEx [lrEx] true Tag.final).2.avg_DY_loss
            * (([lrEx] : List LossRecord).length : ℚ)
          = (([lrEx] : List LossRecord).map LossRecord.D_Y_loss).sum) :=
  ⟨by decide, C7_test_model_returns_batch_means cfgEx [lrEx] true Tag.final (by decide)⟩

/-- C9: every `plot=False` call of `test_model` (how validation passes and
the final test invoke it) never calls `plot_images`, yet still calls
`save_images` into the `test_images` directory exactly for the batch
indices `b` of the dataset with `b % SAVE_EVERY_TEST == 0` — including
batch 0 — so on a non-empty dataset such a pass always writes files. -/
theorem C9_test_model_noplot_still_saves (cfg : Config)
    (losses : List LossRecord) (t : Tag) (_hST : 0 < cfg.SAVE_EVERY_TEST) :
    Event.plotImages ∉ (test_model cfg losses false t).1 ∧
    (∀ b, Event.saveImages t b OutDir.test_images ∈ (test_model cfg losses false t).1 ↔
        b < losses.length ∧ b % cfg.SAVE_EVERY_TEST = 0) ∧
    (losses ≠ [] →
      Event.saveImages t 0 OutDir.test_images ∈ (test_model cfg losses false t).1) := by
  refine ⟨plotImages_not_mem_testEvents cfg t _,
    fun b => saveImages_mem_testEvents cfg t b _, fun h => ?_⟩
  exact (saveImages_mem_testEvents cfg t 0 _).mpr
    ⟨List.length_pos.mpr h, Nat.zero_mod _⟩

/-- Witness for `C9_test_model_noplot_still_saves` at a one-batch dataset. -/
theorem C9_test_model_noplot_still_saves_witness :
    0 < cfgEx.SAVE_EVERY_TEST ∧
      (Event.plotImages ∉ (test_model cfgEx [lrEx] false Tag.final).1 ∧
       (∀ b, Event.saveImages Tag.final b OutDir.test_images
              ∈ (test_model cfgEx [lrEx] false Tag.final).1 ↔
          b < ([lrEx] : List LossRecord).length ∧ b % cfgEx.SAVE_EVERY_TEST = 0) ∧
       (([lrEx] : List LossRecord) ≠ [] →
         Event.saveImages Tag.final 0 OutDir.test_images
           ∈ (test_model cfgEx [lrEx] false Tag.final).1)) :=
  ⟨by decide, C9_test_model_noplot_still_saves cfgEx [lrEx] Tag.final (by decide)⟩

/-- C4: the claim is false on the code — `run` hard-codes
`Adam(2e-4, beta_1=0.5)` and `Adam(1e-4, beta_1=0.5)` (lines 95-96) and
never consults `LEARNING_RATE_GEN`, `LEARNING_RATE_DISC` or `BETA`, even
though `training.py` imports them and `load_model_and_only_test`
(lines 193-194) does use them.  Evaluated at a configuration whose values
differ from the hard-coded literals: the optimizers actually used by the
training run do not carry the configured step sizes or momentum, while the
test-only entry point's optimizers do. -/
theorem C4_run_hardcodes_optimizer_hyperparameters :
    (run cfgEx false tlEx vlEx [] 1 false 0 false [28, 28, 1]).map RunResult.g_optimizer
        = Except.ok (run_g_optimizer cfgEx) ∧
    (run cfgEx false tlEx vlEx [] 1 false 0 false [28, 28, 1]).map RunResult.d_optimizer
        = Except.ok (run_d_optimizer cfgEx) ∧
    (run_g_optimizer cfgEx).learning_rate ≠ cfgEx.LEARNING_RATE_GEN ∧
    (run_d_optimizer cfgEx).learning_rate ≠ cfgEx.LEARNING_RATE_DISC ∧
    (run_g_optimizer cfgEx).beta_1 ≠ cfgEx.BETA ∧
    (run_d_optimizer cfgEx).beta_1 ≠ cfgEx.BETA ∧
    (test_only_g_optimizer cfgEx).learning_rate = cfgEx.LEARNING_RATE_GEN ∧
    (test_only_g_optimizer cfgEx).beta_1 = cfgEx.BETA ∧
    (test_only_d_optimizer cfgEx).learning_rate = cfgEx.LEARNING_RATE_DISC ∧
    (test_only_d_optimizer cfgEx).beta_1 = cfgEx.BETA := by
  refine ⟨rfl, rfl, ?_, ?_, ?_, ?_, rfl, rfl, rfl, rfl⟩ <;>
    norm_num [run_g_optimizer, run_d_optimizer, cfgEx]

theorem validationTriggered_iff (cfg : Config) (b : Nat) :
    validationTriggered cfg b = true ↔ b % cfg.VALIDATION_EVERY = 0 ∧ b ≠ 0 := by
  simp [validationTriggered]

theorem trainBatchStep_hist (cfg : Config) (tl : Nat → Nat → LossRecord)
    (vl : Nat → Nat → List LossRecord) (e b : Nat) (st : Hist × List Event) :
    (trainBatchStep cfg tl vl e b st).1 =
      if validationTriggered cfg b then
        appendVal (appendTrain st.1 (tl e b))
          (test_model cfg (vl e b) false (Tag.pair e b)).2
      else appendTrain st.1 (tl e b) := by
  simp only [trainBatchStep]
  split <;> rfl

theorem trainBatchStep_train_g (cfg : Config) (tl : Nat → Nat → LossRecord)
    (vl : Nat → Nat → List LossRecord) (e b : Nat) (st : Hist × List Event) :
    (trainBatchStep cfg tl vl e b st).1.train_g_losses =
      st.1.train_g_losses ++ [(tl e b).G_loss] := by
  rw [trainBatchStep_hist]
  split <;> rfl

theorem trainBatchStep_train_f (cfg : Config) (tl : Nat → Nat → LossRecord)
    (vl : Nat → Nat → List LossRecord) (e b : Nat) (st : Hist × List Event) :
    (trainBatchStep cfg tl vl e b st).1.train_f_losses =
      st.1.train_f_losses ++ [(tl e b).F_loss] := by
  rw [trainBatchStep_hist]
  split <;> rfl

theorem trainBatchStep_train_dx (cfg : Config) (tl : Nat → Nat → LossRecord)
    (vl : Nat → Nat → List LossRecord) (e b : Nat) (st : Hist × List Event) :
    (trainBatchStep cfg tl vl e b st).1.train_dx_losses =
      st.1.train_dx_losses ++ [(tl e b).D_X_loss] := by
  rw [trainBatchStep_hist]
  split <;> rfl

theorem trainBatchStep_train_dy (cfg : Config) (tl : Nat → Nat → LossRecord)
    (vl : Nat → Nat → List LossRecord) (e b : Nat) (st : Hist × List Event) :
    (trainBatchStep cfg tl vl e b st).1.train_dy_losses =
      st.1.train_dy_losses ++ [(tl e b).D_Y_loss] := by
  rw [trainBatchStep_hist]
  split <;> rfl

theorem trainBatchStep_val_len (cfg : Config) (tl : Nat → Nat → LossRecord)
    (vl : Nat → Nat → List LossRecord) (e b : Nat) (st : Hist × List Event) :
    (trainBatchStep cfg tl vl e b st).1.val_g_losses.length =
        st.1.val_g_losses.length + (if validationTriggered cfg b then 1 else 0) ∧
    (trainBatchStep cfg tl vl e b st).1.val_f_losses.length =
        st.1.val_f_losses.length + (if validationTriggered cfg b then 1 else 0) ∧
    (trainBatchStep cfg tl vl e b st).1.val_dx_losses.length =
        st.1.val_dx_losses.length + (if validationTriggered cfg b then 1 else 0) ∧
    (trainBatchStep cfg tl vl e b st).1.val_dy_losses.length =
        st.1.val_dy_losses.length + (if validationTriggered cfg b then 1 else 0) := by
  rw [trainBatchStep_hist]
  split <;> simp [appendVal, appendTrain]

theorem foldl_batches_train_g (cfg : Config) (tl : Nat → Nat → LossRecord)
    (vl : Nat → Nat → List LossRecord) (e : Nat) :
    ∀ (bs : List Nat) (st : Hist × List Event),
      ((bs.foldl (fun s b => trainBatchStep cfg tl vl e b s) st).1.train_g_losses)
        = st.1.train_g_losses ++ bs.map (fun b => (tl e b).G_loss) := by
  intro bs
  induction bs with
  | nil => intro st; simp
  | cons b bs ih =>
    intro st
    rw [List.foldl_cons, ih, trainBatchStep_train_g]
    simp

theorem foldl_batches_train_f (cfg : Config) (tl : Nat → Nat → LossRecord)
    (vl : Nat → Nat → List LossRecord) (e : Nat) :
    ∀ (bs : List Nat) (st : Hist × List Event),
      ((bs.foldl (fun s b => trainBatchStep cfg tl vl e b s) st).1.train_f_losses)
        = st.1.train_f_losses ++ bs.map (fun b => (tl e b).F_loss) := by
  intro bs
  induction bs with
  | nil => intro st; simp
  | cons b bs ih =>
    intro st
    rw [List.foldl_cons, ih, trainBatchStep_train_f]
    simp

theorem foldl_batches_train_dx (cfg : Config) (tl : Nat → Nat → LossRecord)
    (vl : Nat → Nat → List LossRecord) (e : Nat) :
    ∀ (bs : List Nat) (st : Hist × List Event),
      ((bs.foldl (fun s b => trainBatchStep cfg tl vl e b s) st).1.train_dx_losses)
        = st.1.train_dx_losses ++ bs.map (fun b => (tl e b).D_X_loss) := by
  intro bs
  induction bs with
  | nil => intro st; simp
  | cons b bs ih =>
    intro st
    rw [List.foldl_cons, ih, trainBatchStep_train_dx]
    simp

theorem foldl_batches_train_dy (cfg : Config) (tl : Nat → Nat → LossRecord)
    (vl : Nat → Nat → List LossRecord) (e : Nat) :
    ∀ (bs : List Nat) (st : Hist × List Event),
      ((bs.foldl (fun s b => trainBatchStep cfg tl vl e b s) st).1.train_dy_losses)
        = st.1.train_dy_losses ++ bs.map (fun b => (tl e b).D_Y_loss) := by
  intro bs
  induction bs with
  | nil => intro st; simp
  | cons b bs ih =>
    intro st
    rw [List.foldl_cons, ih, trainBatchStep_train_dy]
    simp

theorem foldl_batches_val_len (cfg : Config) (tl : Nat → Nat → LossRecord)
    (vl : Nat → Nat → List LossRecord) (e : Nat) :
    ∀ (bs : List Nat) (st : Hist × List Event),
      ((bs.foldl (fun s b => trainBatchStep cfg tl vl e b s) st).1.val_g_losses.length
          = st.1.val_g_losses.length + (bs.filter (validationTriggered cfg)).length) ∧
      ((bs.foldl (fun s b => trainBatchStep cfg tl vl e b s) st).1.val_f_losses.length
          = st.1.val_f_losses.length + (bs.filter (validationTriggered cfg)).length) ∧
      ((bs.foldl (fun s b => trainBatchStep cfg tl vl e b s) st).1.val_dx_losses.length
          = st.1.val_dx_losses.length + (bs.filter (validationTriggered cfg)).length) ∧
      ((bs.foldl (fun s b => trainBatchStep cfg tl vl e b s) st).1.val_dy_losses.length
          = st.1.val_dy_losses.length + (bs.filter (validationTriggered cfg)).length) := by
  intro bs
  induction bs with
  | nil => intro st; simp
  | cons b bs ih =>
    intro st
    obtain ⟨ihg, ihf, ihdx, ihdy⟩ := ih (trainBatchStep cfg tl vl e b st)
    obtain ⟨sg, sf, sdx, sdy⟩ := trainBatchStep_val_len cfg tl vl e b st
    rw [List.foldl_cons, List.filter_cons]
    refine ⟨?_, ?_, ?_, ?_⟩ <;>
      · first
        | rw [ihg, sg] | rw [ihf, sf] | rw [ihdx, sdx] | rw [ihdy, sdy]
        by_cases hb : validationTriggered cfg b <;>
          · simp [hb]
            try omega

theorem range_filter_validationTriggered (cfg : Config) :
    ∀ K, ((List.range K).filter (validationTriggered cfg)).length
        = (K - 1) / cfg.VALIDATION_EVERY := by
  intro K
  induction K with
  | zero => simp
  | succ K ih =>
    rw [List.range_succ, List.filter_append, List.length_append, ih,
        List.filter_singleton]
    cases K with
    | zero =>
      have ht : validationTriggered cfg 0 = false := by
        simp [validationTriggered]
      simp [ht]
    | succ m =>
      rw [Nat.succ_sub_one, Nat.succ_sub_one]
      by_cases hmod : (m + 1) % cfg.VALIDATION_EVERY = 0
      · have htrig : validationTriggered cfg (m + 1) = true :=
          (validationTriggered_iff _ _).mpr ⟨hmod, Nat.succ_ne_zero m⟩
        have hdvd : cfg.VALIDATION_EVERY ∣ m + 1 := Nat.dvd_of_mod_eq_zero hmod
        rw [Nat.succ_div_of_dvd hdvd]
        simp [htrig]
      · have htrig : validationTriggered cfg (m + 1) = false := by
          rcases hb : validationTriggered cfg (m + 1) with _ | _
          · rfl
          · exact absurd ((validationTriggered_iff _ _).mp hb).1 hmod
        have hnd : ¬cfg.VALIDATION_EVERY ∣ m + 1 := by
          intro hd
          obtain ⟨c, hc⟩ := hd
          apply hmod
          rw [hc]
          exact Nat.mul_mod_right _ _
        rw [Nat.succ_div_of_not_dvd hnd]
        simp [htrig]

/-- C1: inside the batch loop of a training epoch of `run` (line 158), a
validation pass fires exactly on the batch indices `b` of the loop with
`b % VALIDATION_EVERY == 0` and `b != 0` — never on batch 0 — which over
the `K` loop indices are exactly `floor((K-1)/VALIDATION_EVERY)` many, and
each firing appends exactly one averaged entry to each of the four
validation-history lists. -/
theorem C1_validation_cadence (cfg : Config) (tl : Nat → Nat → LossRecord)
    (vl : Nat → Nat → List LossRecord) (e K : Nat) (st : Hist × List Event)
    (_hV : 0 < cfg.VALIDATION_EVERY) :
    (∀ b, validationTriggered cfg b = true ↔
        0 < b ∧ b % cfg.VALIDATION_EVERY = 0) ∧
    validationTriggered cfg 0 = false ∧
    ((List.range K).filter (validationTriggered cfg)).length
        = (K - 1) / cfg.VALIDATION_EVERY ∧
    (epochBatches cfg tl vl e K st).1.val_g_losses.length
        = st.1.val_g_losses.length + (K - 1) / cfg.VALIDATION_EVERY ∧
    (epochBatches cfg tl vl e K st).1.val_f_losses.length
        = st.1.val_f_losses.length + (K - 1) / cfg.VALIDATION_EVERY ∧
    (epochBatches cfg tl vl e K st).1.val_dx_losses.length
        = st.1.val_dx_losses.length + (K - 1) / cfg.VALIDATION_EVERY ∧
    (epochBatches cfg tl vl e K st).1.val_dy_losses.length
        = st.1.val_dy_losses.length + (K - 1) / cfg.VALIDATION_EVERY := by
  obtain ⟨hg, hf, hdx, hdy⟩ := foldl_batches_val_len cfg tl vl e (List.range K) st
  refine ⟨?_, by simp [validationTriggered],
    range_filter_validationTriggered cfg K, ?_, ?_, ?_, ?_⟩
  · intro b
    rw [validationTriggered_iff]
    constructor
    · rintro ⟨h1, h2⟩
      exact ⟨Nat.pos_of_ne_zero h2, h1⟩
    · rintro ⟨h1, h2⟩
      exact ⟨h2, Nat.pos_iff_ne_zero.mp h1⟩
  · simpa [epochBatches, range_filter_validationTriggered cfg K] using hg
  · simpa [epochBatches, range_filter_validationTriggered cfg K] using hf
  · simpa [epochBatches, range_filter_validationTriggered cfg K] using hdx
  · simpa [epochBatches, range_filter_validationTriggered cfg K] using hdy

/-- Witness for `C1_validation_cadence`: a 5-batch epoch with
`VALIDATION_EVERY = 2` fires validation floor(4/2) = 2 times. -/
theorem C1_validation_cadence_witness :
    0 < cfgEx.VALIDATION_EVERY ∧
      ((∀ b, validationTriggered cfgEx b = true ↔
          0 < b ∧ b % cfgEx.VALIDATION_EVERY = 0) ∧
       validationTriggered cfgEx 0 = false ∧
       ((List.range 5).filter (validationTriggered cfgEx)).length
          = (5 - 1) / cfgEx.VALIDATION_EVERY ∧
       (epochBatches cfgEx tlEx vlEx 0 5 stEx).1.val_g_losses.length
          = stEx.1.val_g_losses.length + (5 - 1) / cfgEx.VALIDATION_EVERY ∧
       (epochBatches cfgEx tlEx vlEx 0 5 stEx).1.val_f_losses.length
          = stEx.1.val_f_losses.length + (5 - 1) / cfgEx.VALIDATION_EVERY ∧
       (epochBatches cfgEx tlEx vlEx 0 5 stEx).1.val_dx_losses.length
          = stEx.1.val_dx_losses.length + (5 - 1) / cfgEx.VALIDATION_EVERY ∧
       (epochBatches cfgEx tlEx vlEx 0 5 stEx).1.val_dy_losses.length
          = stEx.1.val_dy_losses.length + (5 - 1) / cfgEx.VALIDATION_EVERY) :=
  ⟨by decide, C1_validation_cadence cfgEx tlEx vlEx 0 5 stEx (by decide)⟩

/-- C5: after the batch loop of an epoch with `K ≥ 1` batches, `run`
re-appends the final batch's losses (lines 165-168), so the epoch
contributes the per-batch losses of batches `0..K-1` followed by a second
copy of batch `K-1`'s losses — `K + 1` entries — to each of the four
training-history lists. -/
theorem C5_final_batch_losses_duplicated (cfg : Config) (nets : Nets)
    (tl : Nat → Nat → LossRecord) (vl : Nat → Nat → List LossRecord)
    (e K : Nat) (st : Hist × List Event) (hK : 0 < K) :
    ∃ h2 ev2, runEpoch cfg nets tl vl K e st = Except.ok (h2, ev2) ∧
      h2.train_g_losses = st.1.train_g_losses
          ++ (List.range K).map (fun b => (tl e b).G_loss)
          ++ [(tl e (K - 1)).G_loss] ∧
      h2.train_f_losses = st.1.train_f_losses
          ++ (List.range K).map (fun b => (tl e b).F_loss)
          ++ [(tl e (K - 1)).F_loss] ∧
      h2.train_dx_losses = st.1.train_dx_losses
          ++ (List.range K).map (fun b => (tl e b).D_X_loss)
          ++ [(tl e (K - 1)).D_X_loss] ∧
      h2.train_dy_losses = st.1.train_dy_losses
          ++ (List.range K).map (fun b => (tl e b).D_Y_loss)
          ++ [(tl e (K - 1)).D_Y_loss] ∧
      h2.train_g_losses.length = st.1.train_g_losses.length + (K + 1) := by
  obtain ⟨k, rfl⟩ := Nat.exists_eq_succ_of_ne_zero (Nat.pos_iff_ne_zero.mp hK)
  refine ⟨_, _, rfl, ?_, ?_, ?_, ?_, ?_⟩
  · simp only [runEpoch, appendTrain, Nat.succ_sub_one]
    rw [show (epochBatches cfg tl vl e (k + 1) st).1.train_g_losses = _ from
      foldl_batches_train_g cfg tl vl e (List.range (k + 1)) st]
  · simp only [runEpoch, appendTrain, Nat.succ_sub_one]
    rw [show (epochBatches cfg tl vl e (k + 1) st).1.train_f_losses = _ from
      foldl_batches_train_f cfg tl vl e (List.range (k + 1)) st]
  · simp only [runEpoch, appendTrain, Nat.succ_sub_one]
    rw [show (epochBatches cfg tl vl e (k + 1) st).1.train_dx_losses = _ from
      foldl_batches_train_dx cfg tl vl e (List.range (k + 1)) st]
  · simp only [runEpoch, appendTrain, Nat.succ_sub_one]
    rw [show (epochBatches cfg tl vl e (k + 1) st).1.train_dy_losses = _ from
      foldl_batches_train_dy cfg tl vl e (List.range (k + 1)) st]
  · simp only [runEpoch, appendTrain, Nat.succ_sub_one]
    rw [show (epochBatches cfg tl vl e (k + 1) st).1.train_g_losses = _ from
      foldl_batches_train_g cfg tl vl e (List.range (k + 1)) st]
    simp [List.length_append, List.length_map, List.length_range]

/-- Witness for `C5_final_batch_losses_duplicated` at a 3-batch epoch. -/
theorem C5_final_batch_losses_duplicated_witness :
    0 < 3 ∧
      (∃ h2 ev2, runEpoch cfgEx (freshNets [28, 28, 1]) tlEx vlEx 3 0 stEx
            = Except.ok (h2, ev2) ∧
        h2.train_g_losses = stEx.1.train_g_losses
            ++ (List.range 3).map (fun b => (tlEx 0 b).G_loss)
            ++ [(tlEx 0 (3 - 1)).G_loss] ∧
        h2.train_f_losses = stEx.1.train_f_losses
            ++ (List.range 3).map (fun b => (tlEx 0 b).F_loss)
            ++ [(tlEx 0 (3 - 1)).F_loss] ∧
        h2.train_dx_losses = stEx.1.train_dx_losses
            ++ (List.range 3).map (fun b => (tlEx 0 b).D_X_loss)
            ++ [(tlEx 0 (3 - 1)).D_X_loss] ∧
        h2.train_dy_losses = stEx.1.train_dy_losses
            ++ (List.range 3).map (fun b => (tlEx 0 b).D_Y_loss)
            ++ [(tlEx 0 (3 - 1)).D_Y_loss] ∧
        h2.train_g_losses.length = stEx.1.train_g_losses.length + (3 + 1)) :=
  ⟨by decide,
   C5_final_batch_losses_duplicated cfgEx (freshNets [28, 28, 1]) tlEx vlEx 0 3 stEx
     (by decide)⟩

/-- Recognizer for `save_models` calls in an event trace. -/
def isSaveModelsEv : Event → Bool
  | Event.saveModels _ _ => true
  | _ => false

/-- The events one iteration of the training batch loop emits (train step,
optional image snapshot at line 155-157, optional validation pass at
lines 158-164). -/
def trainBatchEvents (cfg : Config) (vl : Nat → Nat → List LossRecord)
    (e b : Nat) : List Event :=
  [Event.trainStep e b] ++
    (if b % cfg.SAVE_EVERY_TRAIN == 0 then
      [Event.saveImages (Tag.num e) b OutDir.train_images]
    else []) ++
    (if validationTriggered cfg b then
      (test_model cfg (vl e b) false (Tag.pair e b)).1
    else [])

theorem trainBatchStep_events (cfg : Config) (tl : Nat → Nat → LossRecord)
    (vl : Nat → Nat → List LossRecord) (e b : Nat) (st : Hist × List Event) :
    (trainBatchStep cfg tl vl e b st).2 = st.2 ++ trainBatchEvents cfg vl e b := by
  simp only [trainBatchStep, trainBatchEvents]
  by_cases hs : (b % cfg.SAVE_EVERY_TRAIN == 0) = true <;>
    by_cases ht : validationTriggered cfg b = true <;>
      simp [hs, ht, List.append_assoc]

/-- The accumulated events of the batch loop over a list of batch indices. -/
def batchesEvents (cfg : Config) (vl : Nat → Nat → List LossRecord)
    (e : Nat) : List Nat → List Event
  | [] => []
  | b :: bs => trainBatchEvents cfg vl e b ++ batchesEvents cfg vl e bs

theorem foldl_batches_events (cfg : Config) (tl : Nat → Nat → LossRecord)
    (vl : Nat → Nat → List LossRecord) (e : Nat) :
    ∀ (bs : List Nat) (st : Hist × List Event),
      (bs.foldl (fun s b => trainBatchStep cfg tl vl e b s) st).2
        = st.2 ++ batchesEvents cfg vl e bs := by
  intro bs
  induction bs with
  | nil => intro st; simp [batchesEvents]
  | cons b bs ih =>
    intro st
    rw [List.foldl_cons, ih, trainBatchStep_events]
    simp [batchesEvents, List.append_assoc]

theorem testBatchEvents_no_saveModels (cfg : Config) (plot : Bool) (t : Tag)
    (b : Nat) : (testBatchEvents cfg plot t b).filter isSaveModelsEv = [] := by
  by_cases hp : plot = true <;>
    by_cases hs : (b % cfg.SAVE_EVERY_TEST == 0) = true <;>
      simp [testBatchEvents, hp, hs, isSaveModelsEv]

theorem testEvents_no_saveModels (cfg : Config) (plot : Bool) (t : Tag) :
    ∀ n, (testEvents cfg plot t n).filter isSaveModelsEv = [] := by
  intro n
  induction n with
  | zero => simp [testEvents]
  | succ n ih =>
    simp [testEvents, List.filter_append, ih, testBatchEvents_no_saveModels]

theorem trainBatchEvents_no_saveModels (cfg : Config)
    (vl : Nat → Nat → List LossRecord) (e b : Nat) :
    (trainBatchEvents cfg vl e b).filter isSaveModelsEv = [] := by
  by_cases hs : (b % cfg.SAVE_EVERY_TRAIN == 0) = true <;>
    by_cases ht : validationTriggered cfg b = true <;>
      simp [trainBatchEvents, hs, ht, isSaveModelsEv, List.filter_append,
        test_model, testEvents_no_saveModels]

theorem batchesEvents_no_saveModels (cfg : Config)
    (vl : Nat → Nat → List LossRecord) (e : Nat) :
    ∀ bs, (batchesEvents cfg vl e bs).filter isSaveModelsEv = [] := by
  intro bs
  induction bs with
  | nil => simp [batchesEvents]
  | cons b bs ih =>
    simp [batchesEvents, List.filter_append, ih,
      trainBatchEvents_no_saveModels]

theorem runEpoch_ok (cfg : Config) (nets : Nets) (tl : Nat → Nat → LossRecord)
    (vl : Nat → Nat → List LossRecord) (K e : Nat) (st : Hist × List Event)
    (hK : 0 < K) :
    runEpoch cfg nets tl vl K e st
      = Except.ok (appendTrain (epochBatches cfg tl vl e K st).1 (tl e (K - 1)),
          (epochBatches cfg tl vl e K st).2 ++ [Event.saveModels nets e]) := by
  obtain ⟨k, rfl⟩ := Nat.exists_eq_succ_of_ne_zero (Nat.pos_iff_ne_zero.mp hK)
  rfl

theorem foldlM_epochs_ok (cfg : Config) (nets : Nets)
    (tl : Nat → Nat → LossRecord) (vl : Nat → Nat → List LossRecord)
    (K : Nat) (hK : 0 < K) :
    ∀ (es : List Nat) (st : Hist × List Event),
      ∃ st2, es.foldlM (fun s e => runEpoch cfg nets tl vl K e s) st
            = Except.ok st2 ∧
        st2.2.filter isSaveModelsEv
          = st.2.filter isSaveModelsEv ++ es.map (Event.saveModels nets) ∧
        ∃ r, st2.2 = st.2 ++ r := by
  intro es
  induction es with
  | nil =>
    intro st
    exact ⟨st, rfl, by simp, ⟨[], by simp⟩⟩
  | cons e es ih =>
    intro st
    rw [List.foldlM_cons, runEpoch_ok cfg nets tl vl K e st hK]
    obtain ⟨st2, heq, hfil, r1, hext⟩ :=
      ih (appendTrain (epochBatches cfg tl vl e K st).1 (tl e (K - 1)),
          (epochBatches cfg tl vl e K st).2 ++ [Event.saveModels nets e])
    refine ⟨st2, ?_, ?_, ?_⟩
    · exact heq
    · rw [hfil]
      simp only [List.filter_append, epochBatches, foldl_batches_events,
        batchesEvents_no_saveModels]
      simp [isSaveModelsEv]
    · refine ⟨batchesEvents cfg vl e (List.range K)
          ++ [Event.saveModels nets e] ++ r1, ?_⟩
      rw [hext]
      simp only [epochBatches, foldl_batches_events]
      simp [List.append_assoc]

theorem selectModels_events (loadOk resume_train : Bool) (s : Nat) (rob : Bool)
    (shape : List Nat) :
    (selectModels loadOk resume_train s rob shape).2.2
      = if resume_train && !rob then [Event.loadModels s] else [] := by
  by_cases h : (resume_train && !rob) = true <;> by_cases hl : loadOk = true <;>
    simp [selectModels, load_models, h, hl]

theorem selectModels_events_no_saveModels (loadOk resume_train : Bool) (s : Nat)
    (rob : Bool) (shape : List Nat) :
    ((selectModels loadOk resume_train s rob shape).2.2).filter isSaveModelsEv
      = [] := by
  rw [selectModels_events]
  by_cases h : (resume_train && !rob) = true <;> simp [h, isSaveModelsEv]

theorem run_ok_spec (cfg : Config) (loadOk : Bool)
    (tl : Nat → Nat → LossRecord) (vl : Nat → Nat → List LossRecord)
    (tL : List LossRecord) (K : Nat) (resume_train : Bool) (s : Nat)
    (rob : Bool) (shape : List Nat) (hK : 0 < K) :
    ∃ r, run cfg loadOk tl vl tL K resume_train s rob shape = Except.ok r ∧
      r.nets = (selectModels loadOk resume_train s rob shape).1 ∧
      r.start_epoch = (selectModels loadOk resume_train s rob shape).2.1 ∧
      r.epochs = List.range' r.start_epoch (cfg.EPOCHS - r.start_epoch) ∧
      r.events.filter isSaveModelsEv = r.epochs.map (Event.saveModels r.nets) ∧
      (∃ rest, r.events
          = (selectModels loadOk resume_train s rob shape).2.2 ++ rest) := by
  obtain ⟨st2, heq, hfil, r1, hext⟩ :=
    foldlM_epochs_ok cfg (selectModels loadOk resume_train s rob shape).1 tl vl
      K hK
      (List.range' (selectModels loadOk resume_train s rob shape).2.1
        (cfg.EPOCHS - (selectModels loadOk resume_train s rob shape).2.1))
      (emptyHist,
        (selectModels loadOk resume_train s rob shape).2.2
          ++ [Event.plotImages, Event.plotImages, Event.plotImages])
  refine ⟨{ hist := st2.1
            events := st2.2 ++ (test_model cfg tL false Tag.final).1
            g_optimizer := run_g_optimizer cfg
            d_optimizer := run_d_optimizer cfg
            nets := (selectModels loadOk resume_train s rob shape).1
            start_epoch := (selectModels loadOk resume_train s rob shape).2.1
            epochs := List.range'
              (selectModels loadOk resume_train s rob shape).2.1
              (cfg.EPOCHS
                - (selectModels loadOk resume_train s rob shape).2.1) },
    ?_, rfl, rfl, rfl, ?_, ?_⟩
  · simp only [run]
    rw [heq]
  · simp only [List.filter_append, hfil, test_model, testEvents_no_saveModels,
      List.filter_append, selectModels_events_no_saveModels]
    simp [isSaveModelsEv]
  · refine ⟨[Event.plotImages, Event.plotImages, Event.plotImages] ++ r1
        ++ (test_model cfg tL false Tag.final).1, ?_⟩
    rw [hext]
    simp [List.append_assoc]

/-- C2: a resume request (`resume_train=True`, `robotics_task=False`) whose
`load_models(start_epoch)` raises is recovered inside `run` (lines 81-88):
the run completes (no propagated error), the four networks are freshly
initialized, the effective start epoch is reset to 0, the epoch loop covers
epochs `0 .. EPOCHS-1`, and the load attempt is the first recorded action. -/
theorem C2_resume_load_failure_recovers (cfg : Config)
    (tl : Nat → Nat → LossRecord) (vl : Nat → Nat → List LossRecord)
    (tL : List LossRecord) (K e : Nat) (shape : List Nat) (hK : 0 < K) :
    ∃ r, run cfg false tl vl tL K true e false shape = Except.ok r ∧
      r.nets = freshNets shape ∧
      r.start_epoch = 0 ∧
      r.epochs = List.range cfg.EPOCHS ∧
      r.events.head? = some (Event.loadModels e) := by
  obtain ⟨r, hr, hn, hs, hep, -, rest, hev⟩ :=
    run_ok_spec cfg false tl vl tL K true e false shape hK
  have hsel : selectModels false true e false shape
      = (freshNets shape, 0, [Event.loadModels e]) := rfl
  refine ⟨r, hr, ?_, ?_, ?_, ?_⟩
  · rw [hn, hsel]
  · rw [hs, hsel]
  · rw [hep, hs, hsel, List.range_eq_range']
    rfl
  · rw [hev, hsel]
    rfl

/-- Witness for `C2_resume_load_failure_recovers` at a failing resume from
epoch 3. -/
theorem C2_resume_load_failure_recovers_witness :
    0 < 1 ∧
      (∃ r, run cfgEx false tlEx vlEx [] 1 true 3 false [28, 28, 1]
            = Except.ok r ∧
        r.nets = freshNets [28, 28, 1] ∧
        r.start_epoch = 0 ∧
        r.epochs = List.range cfgEx.EPOCHS ∧
        r.events.head? = some (Event.loadModels 3)) :=
  ⟨by decide,
   C2_resume_load_failure_recovers cfgEx tlEx vlEx [] 1 3 [28, 28, 1]
     (by decide)⟩

/-- C3 counterexample: with `resume_train=True` but `robotics_task=True` the
guard of line 77 is false, so `run` never calls `load_models` — even when
the checkpoint would load fine — and uses fresh networks instead.  This
refutes the claim that the load is attempted for every value of
`robotics_task`. -/
theorem C3_robotics_resume_skips_load_counterexample :
    (run cfgEx true tlEx vlEx [] 1 true 3 true [28, 28, 1]).map RunResult.nets
        = Except.ok (freshNets [28, 28, 1]) ∧
    (run cfgEx true tlEx vlEx [] 1 true 3 true [28, 28, 1]).map
        (fun r => decide (Event.loadModels 3 ∈ r.events))
      = Except.ok false :=
  ⟨rfl, rfl⟩

/-- C3 (amended): for every call of `run` with `resume_train=True` and
`robotics_task=False`, `run` attempts `load_models(start_epoch)` before
anything else — whether or not the load succeeds — and falls back to fresh
networks only on failure. -/
theorem C3_amended_resume_attempts_load (cfg : Config) (loadOk : Bool)
    (tl : Nat → Nat → LossRecord) (vl : Nat → Nat → List LossRecord)
    (tL : List LossRecord) (K e : Nat) (shape : List Nat) (hK : 0 < K) :
    ∃ r, run cfg loadOk tl vl tL K true e false shape = Except.ok r ∧
      r.events.head? = some (Event.loadModels e) := by
  obtain ⟨r, hr, -, -, -, -, rest, hev⟩ :=
    run_ok_spec cfg loadOk tl vl tL K true e false shape hK
  refine ⟨r, hr, ?_⟩
  rw [hev, selectModels_events]
  rfl

/-- Witness for `C3_amended_resume_attempts_load` with a succeeding load. -/
theorem C3_amended_resume_attempts_load_witness :
    0 < 1 ∧
      (∃ r, run cfgEx true tlEx vlEx [] 1 true 3 false [28, 28, 1]
            = Except.ok r ∧
        r.events.head? = some (Event.loadModels 3)) :=
  ⟨by decide,
   C3_amended_resume_attempts_load cfgEx true tlEx vlEx [] 1 3 [28, 28, 1]
     (by decide)⟩

/-- C6: in every completed `run`, the `save_models` calls recorded in the
event trace are exactly one per executed epoch — carrying the aggregate's
four networks and that epoch's index, in epoch order (lines 170-171) — and
no `save_models` call happens anywhere else in the loop. -/
theorem C6_save_models_once_per_epoch (cfg : Config) (loadOk : Bool)
    (tl : Nat → Nat → LossRecord) (vl : Nat → Nat → List LossRecord)
    (tL : List LossRecord) (K : Nat) (resume_train : Bool) (s : Nat)
    (rob : Bool) (shape : List Nat) (hK : 0 < K) :
    ∃ r, run cfg loadOk tl vl tL K resume_train s rob shape = Except.ok r ∧
      r.epochs = List.range' r.start_epoch (cfg.EPOCHS - r.start_epoch) ∧
      r.events.filter isSaveModelsEv = r.epochs.map (Event.saveModels r.nets) := by
  obtain ⟨r, hr, -, -, hep, hfil, -⟩ :=
    run_ok_spec cfg loadOk tl vl tL K resume_train s rob shape hK
  exact ⟨r, hr, hep, hfil⟩

/-- Witness for `C6_save_models_once_per_epoch`: a fresh 2-epoch run. -/
theorem C6_save_models_once_per_epoch_witness :
    0 < 1 ∧
      (∃ r, run cfgEx false tlEx vlEx [] 1 false 0 false [28, 28, 1]
            = Except.ok r ∧
        r.epochs = List.range' r.start_epoch (cfgEx.EPOCHS - r.start_epoch) ∧
        r.events.filter isSaveModelsEv
          = r.epochs.map (Event.saveModels r.nets)) :=
  ⟨by decide,
   C6_save_models_once_per_epoch cfgEx false tlEx vlEx [] 1 false 0 false
     [28, 28, 1] (by decide)⟩

/-- C8: if the train dataset yields zero batches, the post-loop re-append of
`train_loss` (line 165) reads a never-assigned variable, so `run` fails with
a NameError instead of completing the first epoch it executes; with at least
one batch per epoch this failure cannot happen and `run` completes. -/
theorem C8_empty_train_dataset_fails (cfg : Config)
    (tl : Nat → Nat → LossRecord) (vl : Nat → Nat → List LossRecord)
    (tL : List LossRecord) (s : Nat) (shape : List Nat)
    (hs : s < cfg.EPOCHS) :
    run cfg false tl vl tL 0 false s false shape
        = Except.error "NameError: train_loss referenced before assignment" ∧
    (∀ K, 0 < K →
      ∃ r, run cfg false tl vl tL K false s false shape = Except.ok r) := by
  constructor
  · have hsel : selectModels false false s false shape
        = (freshNets shape, s, []) := rfl
    have hE : cfg.EPOCHS - s = Nat.succ (cfg.EPOCHS - s - 1) := by omega
    simp only [run, hsel]
    rw [hE, List.range'_succ, List.foldlM_cons]
    rfl
  · intro K hK
    obtain ⟨r, hr, -⟩ := run_ok_spec cfg false tl vl tL K false s false shape hK
    exact ⟨r, hr⟩

/-- Witness for `C8_empty_train_dataset_fails` at start epoch 0 of a
2-epoch configuration. -/
theorem C8_empty_train_dataset_fails_witness :
    0 < cfgEx.EPOCHS ∧
      (run cfgEx false tlEx vlEx [] 0 false 0 false [28, 28, 1]
          = Except.error "NameError: train_loss referenced before assignment" ∧
       (∀ K, 0 < K →
         ∃ r, run cfgEx false tlEx vlEx [] K false 0 false [28, 28, 1]
            = Except.ok r)) :=
  ⟨by decide,
   C8_empty_train_dataset_fails cfgEx tlEx vlEx [] 0 [28, 28, 1] (by decide)⟩

/-- C10: a successful resume (`resume_train=True`, `robotics_task=False`,
checkpoint for `start_epoch = e` loads) runs the epoch loop over
`range(e, EPOCHS)`: the loaded networks are used, the effective start epoch
stays `e`, exactly `EPOCHS - e` epochs are trained starting with epoch `e`
itself, and the first `save_models` of the run re-writes epoch `e`'s
checkpoint. -/
theorem C10_successful_resume_retrains_loaded_epoch (cfg : Config)
    (tl : Nat → Nat → LossRecord) (vl : Nat → Nat → List LossRecord)
    (tL : List LossRecord) (K e : Nat) (shape : List Nat)
    (hK : 0 < K) (hE : e < cfg.EPOCHS) :
    ∃ r, run cfg true tl vl tL K true e false shape = Except.ok r ∧
      r.nets = (Network.loaded e 0, Network.loaded e 1,
                Network.loaded e 2, Network.loaded e 3) ∧
      r.start_epoch = e ∧
      r.epochs = List.range' e (cfg.EPOCHS - e) ∧
      r.epochs.length = cfg.EPOCHS - e ∧
      r.epochs.head? = some e ∧
      (r.events.filter isSaveModelsEv).head?
        = some (Event.saveModels r.nets e) := by
  obtain ⟨r, hr, hn, hs, hep, hfil, -⟩ :=
    run_ok_spec cfg true tl vl tL K true e false shape hK
  have hsel : selectModels true true e false shape
      = ((Network.loaded e 0, Network.loaded e 1,
          Network.loaded e 2, Network.loaded e 3), e, [Event.loadModels e]) :=
    rfl
  have hs2 : r.start_epoch = e := by rw [hs, hsel]
  have hn2 : r.nets = (Network.loaded e 0, Network.loaded e 1,
      Network.loaded e 2, Network.loaded e 3) := by rw [hn, hsel]
  have hE2 : cfg.EPOCHS - e = Nat.succ (cfg.EPOCHS - e - 1) := by omega
  refine ⟨r, hr, hn2, hs2, ?_, ?_, ?_, ?_⟩
  · rw [hep, hs2]
  · rw [hep, hs2]
    simp
  · rw [hep, hs2, hE2, List.range'_succ]
    rfl
  · rw [hfil, hep, hs2, hE2, List.range'_succ]
    rfl

/-- Witness for `C10_successful_resume_retrains_loaded_epoch`: resume at
epoch 1 of a 2-epoch configuration. -/
theorem C10_successful_resume_retrains_loaded_epoch_witness :
    (0 < 2 ∧ 1 < cfgEx.EPOCHS) ∧
      (∃ r, run cfgEx true tlEx vlEx [] 2 true 1 false [28, 28, 1]
            = Except.ok r ∧
        r.nets = (Network.loaded 1 0, Network.loaded 1 1,
                  Network.loaded 1 2, Network.loaded 1 3) ∧
        r.start_epoch = 1 ∧
        r.epochs = List.range' 1 (cfgEx.EPOCHS - 1) ∧
        r.epochs.length = cfgEx.EPOCHS - 1 ∧
        r.epochs.head? = some 1 ∧
        (r.events.filter isSaveModelsEv).head?
          = some (Event.saveModels r.nets 1)) :=
  ⟨⟨by decide, by decide⟩,
   C10_successful_resume_retrains_loaded_epoch cfgEx tlEx vlEx [] 2 1
     [28, 28, 1] (by decide) (by decide)⟩
